import Mathlib

/-!
Verification of the ClothAI service against its design specification.

The development shallowly embeds the Python source:

* `src/cloth_change.py` — `ClothChangeAPI.wait_for_execution` becomes the
  `waitFrom` / `wait_for_execution` functions below.  Each polling tick is
  driven by an oracle `fetch : Nat → FetchResult` giving the result of the
  `get_execution_details` call at that attempt index (either a parsed JSON
  snapshot or a transport error, i.e. a `requests.exceptions.RequestException`).
  The returned `WaitTrace` records the outcome together with the number of
  status fetches performed and the number of `time.sleep(delay)` calls.
* `src/main.py` — each FastAPI endpoint becomes a pure function from its
  inputs, the configured API key, the caller-supplied `X-API-Key` header, an
  environment of external-call results, and (where relevant) the quota
  database, to a response paired with the list of external calls issued.
* `src/database.py` — the `device_try_counts` table becomes a list of
  `DeviceRecord`s; SQLAlchemy's `query(...).filter(...).first()` becomes a
  first-match lookup and the add/mutate/commit sequence a first-match update
  or append.
-/

namespace ClothAI

/-- A provider status snapshot: the JSON dict returned by
`GET {base}/{flow_id}/executions/{id}` as used by the Python code.
`status`, `output` and `error` model `execution.get('status')`,
`result.get('output')` and `execution.get('error')`; a `none` field is an
absent key.  `output_url` is the key `main.py` adds after re-uploading the
artifact.  `extra` stands for all remaining keys of the dict, so that
"returned unchanged" is a substantive statement. -/
structure Snapshot where
  status : Option String
  output : Option String
  error : Option String
  output_url : Option String
  extra : List (String × String)
deriving DecidableEq, Repr

/-- Result of one `get_execution_details` call inside the polling loop:
either a parsed snapshot or a `requests.exceptions.RequestException`. -/
inductive FetchResult where
  | ok (execution : Snapshot)
  | transportError (msg : String)
deriving DecidableEq, Repr

/-- Terminal outcome of `wait_for_execution`: return the snapshot
(`status == 'succeeded'`), raise `Exception(error_msg)` for a provider-reported
failure, or raise `TimeoutError` once the retry budget is exhausted.  The three
constructors are distinct, mirroring the distinct Python exception types. -/
inductive WaitOutcome where
  | success (execution : Snapshot)
  | jobFailed (msg : String)
  | timedOut (msg : String)
deriving DecidableEq, Repr

/-- Outcome of a run of the polling loop together with its observable
effects: how many status fetches were attempted and how many
`time.sleep(delay)` calls happened. -/
structure WaitTrace where
  outcome : WaitOutcome
  fetches : Nat
  sleeps : Nat
deriving DecidableEq, Repr

/-- Python's `str.lower()` on the ASCII status tokens the provider emits:
lowercase every character.  (Extensionally this is `String.toLower`, written
via `List.map` so that it evaluates by kernel reduction.) -/
def lower (s : String) : String :=
  ⟨s.data.map Char.toLower⟩

/-- The normalization `execution.get('status', '').lower()` from
`wait_for_execution`. -/
def normStatus (e : Snapshot) : String :=
  lower (e.status.getD "")

/-- The `TimeoutError` message raised after the loop:
`f"Timeout waiting for execution {execution_id} after {max_retries} attempts"`. -/
def timeoutMsg (execution_id : String) (max_retries : Nat) : String :=
  "Timeout waiting for execution " ++ execution_id ++ " after " ++
    toString max_retries ++ " attempts"

/-- The body of `for attempt in range(max_retries): ...` from
`ClothChangeAPI.wait_for_execution`, starting at attempt index `attempt` with
`remaining` loop iterations left.  A transport error on the fetch is caught by
the `except requests.exceptions.RequestException` handler: one sleep, then the
next iteration.  A snapshot is classified after `.lower()` normalization:
`'succeeded'` returns it, `'failed'`/`'error'` raises, anything else sleeps and
retries.  When the iterations run out, `TimeoutError` is raised. -/
def waitFrom (execution_id : String) (fetch : Nat → FetchResult)
    (max_retries : Nat) : Nat → Nat → WaitTrace
  | _, 0 => ⟨.timedOut (timeoutMsg execution_id max_retries), 0, 0⟩
  | attempt, remaining + 1 =>
    match fetch attempt with
    | .transportError _ =>
      let t := waitFrom execution_id fetch max_retries (attempt + 1) remaining
      ⟨t.outcome, t.fetches + 1, t.sleeps + 1⟩
    | .ok execution =>
      if normStatus execution = "succeeded" then
        ⟨.success execution, 1, 0⟩
      else if normStatus execution = "failed" ∨ normStatus execution = "error" then
        ⟨.jobFailed ("Execution failed: " ++ execution.error.getD "Unknown error"), 1, 0⟩
      else
        let t := waitFrom execution_id fetch max_retries (attempt + 1) remaining
        ⟨t.outcome, t.fetches + 1, t.sleeps + 1⟩

/-- The method `ClothChangeAPI.wait_for_execution(execution_id, max_retries, delay)`:
run the loop from attempt 0 with the full retry budget.  The fixed `delay` does
not influence control flow; each unit of `sleeps` stands for one
`time.sleep(delay)`. -/
def wait_for_execution (execution_id : String) (fetch : Nat → FetchResult)
    (max_retries : Nat) : WaitTrace :=
  waitFrom execution_id fetch max_retries 0 max_retries

/-- A tick result that keeps the loop going: a transport error, or a snapshot
whose normalized status is neither the success token nor a failure token. -/
def transient (r : FetchResult) : Bool :=
  match r with
  | .transportError _ => true
  | .ok execution =>
    ¬ (normStatus execution = "succeeded" ∨ normStatus execution = "failed" ∨
       normStatus execution = "error")

/-- Is the outcome the locally raised `TimeoutError`? -/
def isTimedOut : WaitOutcome → Bool
  | .timedOut _ => true
  | _ => false

/-- Did the `Except` computation succeed? -/
def exceptIsOk {ε α : Type} : Except ε α → Bool
  | .ok _ => true
  | .error _ => false

/-- A snapshot still in flight. -/
def runningSnap : Snapshot := ⟨some "running", none, none, none, []⟩

/-- A successful snapshot whose status token is upper-case. -/
def upperSucceeded : Snapshot :=
  ⟨some "SUCCEEDED", some "http://p/out.png", none, none, [("id", "e1")]⟩

/-- A snapshot whose status token carries surrounding whitespace. -/
def spacedSucceeded : Snapshot := ⟨some " succeeded", none, none, none, []⟩

/-- A failed snapshot with an error detail. -/
def failedSnap : Snapshot := ⟨some "FAILED", none, some "out of credits", none, []⟩

/-- A fetch oracle: one in-flight tick, then the upper-case success. -/
def exFetch : Nat → FetchResult := fun j =>
  if j = 0 then .ok runningSnap else .ok upperSucceeded

/-- The `HTTPException`s raised by the FastAPI endpoints, by status code:
400 validation, 403 forbidden, 500 server error. -/
inductive HttpError where
  | badRequest (detail : String)
  | forbidden (detail : String)
  | serverError (detail : String)
deriving DecidableEq, Repr

/-- One outbound external call issued while handling a request, in order:
an ImgBB upload, the EachLabs trigger, a status fetch, or an artifact
download. -/
inductive ExtCall where
  | upload (filename : String)
  | trigger (person_url cloth_url clothing_type : String)
  | fetchStatus (execution_id : String)
  | download (url : String)
deriving DecidableEq, Repr

/-- A multipart file as FastAPI hands it to the endpoint. -/
structure UploadFile where
  filename : String
  content_type : String
deriving DecidableEq, Repr

/-- The JSON acknowledgment returned by the provider's trigger call. -/
structure TriggerResult where
  execution_id : Option String
  extra : List (String × String)
deriving DecidableEq, Repr

/-- Results the external world would give to the calls a `/change-cloth`
request can issue: the raw ImgBB hosting outcome for each of the two image
uploads.  An `Except.error` is the exception the corresponding call would
raise.  (No trigger outcome is needed: the source never reaches the trigger
request — see `change_cloth` below.) -/
structure ChangeClothEnv where
  uploadPerson : Except String String
  uploadCloth : Except String String
deriving Repr

/-- The `TypeError` raised by the gateway invocation in `main.py`: the
handler calls `cloth_change_api.change_cloth(..., clothing_type=...)`
(main.py line 135), but the method signature in `cloth_change.py` line 32 is
`change_cloth(self, person_image_url, cloth_image_url, cloth_type='',
webhook_url='')` — there is no `clothing_type` parameter, so Python raises
before the method body runs. -/
def triggerTypeError : String :=
  "ClothChangeAPI.change_cloth() got an unexpected keyword argument 'clothing_type'"

/-- The helper `upload_to_imgbb` from `main.py`: return the hosted URL, or raise
`HTTPException(500, f"Failed to upload image: {e}")` when the hosting call
fails. -/
def upload_to_imgbb (hosting : Except String String) : Except String String :=
  match hosting with
  | .ok url => .ok url
  | .error e => .error ("Failed to upload image: " ++ e)

/-- Python's `str.startswith`, written structurally over the character
lists so that it evaluates by kernel reduction. -/
def startswith (s p : String) : Bool :=
  p.data.isPrefixOf s.data

/-- Is the response a 400 validation error? -/
def isBadRequest {α : Type} : Except HttpError α → Bool
  | .error (.badRequest _) => true
  | _ => false

/-- Is the call the job-trigger call? -/
def isTrigger : ExtCall → Bool
  | .trigger _ _ _ => true
  | _ => false

/-- Endpoint `POST /change-cloth` (`change_cloth` in `main.py`).  The API-key
dependency runs first; then both content types are validated; then the two
images are uploaded in order.  The gateway invocation that follows
(main.py lines 135-139) passes the keyword `clothing_type=`, which
`ClothChangeAPI.change_cloth` (parameter `cloth_type`, cloth_change.py
line 32) does not accept, so Python raises `TypeError` at the call site:
the outbound trigger request is never sent and the handler's
`except Exception` turns the error — like any exception after validation —
into `HTTPException(500, f"Error processing cloth change: {e}")`.  The
endpoint therefore has no success path.  The second component lists the
external calls issued. -/
def change_cloth (cfgKey apiKey : String) (person cloth : UploadFile)
    (clothing_type : String) (env : ChangeClothEnv) :
    Except HttpError TriggerResult × List ExtCall :=
  if apiKey ≠ cfgKey then (.error (.forbidden "Invalid API key"), [])
  else if ¬ startswith person.content_type "image/" then
    (.error (.badRequest "Person file must be an image"), [])
  else if ¬ startswith cloth.content_type "image/" then
    (.error (.badRequest "Cloth file must be an image"), [])
  else
    match upload_to_imgbb env.uploadPerson with
    | .error e =>
      (.error (.serverError ("Error processing cloth change: " ++ e)),
       [.upload person.filename])
    | .ok _person_url =>
      match upload_to_imgbb env.uploadCloth with
      | .error e =>
        (.error (.serverError ("Error processing cloth change: " ++ e)),
         [.upload person.filename, .upload cloth.filename])
      | .ok _cloth_url =>
        (.error (.serverError ("Error processing cloth change: " ++ triggerTypeError)),
         [.upload person.filename, .upload cloth.filename])

/-- The cleanup `output_url.replace('"', '')`: remove every double-quote
character. -/
def stripQuotes (s : String) : String :=
  ⟨s.data.filter (fun c => c ≠ '"')⟩

/-- Results the external world would give to the calls a
`GET /status/{execution_id}` request can issue: the execution-details fetch,
the artifact download (its byte content on success), and the raw ImgBB
hosting outcome for the re-upload. -/
structure StatusEnv where
  fetchDetails : Except String Snapshot
  download : Except String (List Nat)
  hosting : Except String String
deriving Repr

/-- The JSON body `{"execution_id": ..., "status": ..., "details": ...}`
returned by the status endpoint. -/
structure StatusResponse where
  execution_id : String
  status : String
  details : Snapshot
deriving DecidableEq, Repr

/-- Endpoint `GET /status/{execution_id}` (`get_execution_status` in `main.py`).
After the API-key dependency, fetch the execution details; when the
normalized status is `'succeeded'` and `output` is non-empty, strip double
quotes from the output URL, download the artifact, re-upload it via
`upload_to_imgbb`, and record the hosted URL under the `output_url` key of
the details.  Any exception in the body is re-raised as
`HTTPException(500, f"Error checking execution status: {e}")`. -/
def get_execution_status (cfgKey apiKey execution_id : String)
    (env : StatusEnv) : Except HttpError StatusResponse × List ExtCall :=
  if apiKey ≠ cfgKey then (.error (.forbidden "Invalid API key"), [])
  else
    match env.fetchDetails with
    | .error e =>
      (.error (.serverError ("Error checking execution status: " ++ e)),
       [.fetchStatus execution_id])
    | .ok result =>
      let status := lower (result.status.getD "")
      if status = "succeeded" then
        if result.output.getD "" ≠ "" then
          let output_url := stripQuotes (result.output.getD "")
          match env.download with
          | .error e =>
            (.error (.serverError ("Error checking execution status: " ++ e)),
             [.fetchStatus execution_id, .download output_url])
          | .ok _content =>
            match upload_to_imgbb env.hosting with
            | .error e =>
              (.error (.serverError ("Error checking execution status: " ++ e)),
               [.fetchStatus execution_id, .download output_url,
                .upload ("output_" ++ execution_id ++ ".png")])
            | .ok imgbb_url =>
              (.ok ⟨execution_id, status, { result with output_url := some imgbb_url }⟩,
               [.fetchStatus execution_id, .download output_url,
                .upload ("output_" ++ execution_id ++ ".png")])
        else (.ok ⟨execution_id, status, result⟩, [.fetchStatus execution_id])
      else (.ok ⟨execution_id, status, result⟩, [.fetchStatus execution_id])

/-- One row of the `device_try_counts` table from `database.py`.
`last_updated` is a timestamp, modelled as a tick count. -/
structure DeviceRecord where
  device_id : String
  try_count_left : Int
  last_updated : Nat
deriving DecidableEq, Repr

/-- The quota table: its rows in insertion order. -/
abbrev Db := List DeviceRecord

/-- The lookup
`db.query(DeviceTryCount).filter(DeviceTryCount.device_id == d).first()`. -/
def queryFirst (d : String) : Db → Option DeviceRecord
  | [] => none
  | r :: rs => if r.device_id = d then some r else queryFirst d rs

/-- Mutating the first matching row in place: overwrite `try_count_left`
and `last_updated`. -/
def updateFirst (d : String) (n : Int) (t : Nat) : Db → Db
  | [] => []
  | r :: rs =>
    if r.device_id = d then
      { r with try_count_left := n, last_updated := t } :: rs
    else r :: updateFirst d n t rs

/-- The JSON body `{"device_id": ..., "try_count_left": ...}`;
`try_count_left` is `null` for an unregistered device. -/
structure TryCountResponse where
  device_id : String
  try_count_left : Option Int
deriving DecidableEq, Repr

/-- Endpoint `GET /try-count/{device_id}` (`get_try_count` in `main.py`): after the
API-key dependency, look the device up; an absent record yields `null`, not
an error. -/
def get_try_count (cfgKey apiKey d : String) (db : Db) :
    Except HttpError TryCountResponse :=
  if apiKey ≠ cfgKey then .error (.forbidden "Invalid API key")
  else
    match queryFirst d db with
    | none => .ok ⟨d, none⟩
    | some r => .ok ⟨d, some r.try_count_left⟩

/-- Endpoint `POST /try-count` (`update_try_count` in `main.py`): after the API-key
dependency, upsert the record — add a new row when the device is absent,
otherwise overwrite `try_count_left` of the first matching row; in both
cases `last_updated` is overwritten with the current time. -/
def update_try_count (cfgKey apiKey d : String) (n : Int) (now : Nat)
    (db : Db) : Except HttpError TryCountResponse × Db :=
  if apiKey ≠ cfgKey then (.error (.forbidden "Invalid API key"), db)
  else
    match queryFirst d db with
    | none => (.ok ⟨d, some n⟩, db ++ [⟨d, n, now⟩])
    | some _ => (.ok ⟨d, some n⟩, updateFirst d n now db)

/-- Endpoint `GET /devices` (`get_devices` in `main.py`): after the API-key
dependency, return every row. -/
def get_devices (cfgKey apiKey : String) (db : Db) : Except HttpError Db :=
  if apiKey ≠ cfgKey then .error (.forbidden "Invalid API key")
  else .ok db

/-- The `/change-cloth` handler paired with the quota store of the running
app.  In `main.py` the handler declares no database dependency at all (no
`db: Session = Depends(get_db)` parameter), so the store is carried across
the request untouched. -/
def change_cloth_app (cfgKey apiKey : String) (person cloth : UploadFile)
    (clothing_type : String) (env : ChangeClothEnv) (db : Db) :
    (Except HttpError TriggerResult × List ExtCall) × Db :=
  (change_cloth cfgKey apiKey person cloth clothing_type env, db)

/-- A valid person image upload. -/
def personJpg : UploadFile := ⟨"person.jpg", "image/jpeg"⟩

/-- A valid cloth image upload. -/
def clothPng : UploadFile := ⟨"cloth.png", "image/png"⟩

/-- A text file posing as the person image. -/
def notesTxt : UploadFile := ⟨"notes.txt", "text/plain"⟩

/-- An environment in which both uploads succeed. -/
def okEnv : ChangeClothEnv :=
  ⟨.ok "https://i.ibb.co/p.jpg", .ok "https://i.ibb.co/c.png"⟩

/-- An environment in which the person upload fails. -/
def personUploadFails : ChangeClothEnv :=
  ⟨.error "connection reset", .ok "https://i.ibb.co/c.png"⟩

/-- A succeeded snapshot with a provider-side output URL. -/
def sbSnap : Snapshot :=
  ⟨some "succeeded", some "http://p/out.png", none, none, []⟩

/-- A status-endpoint environment in which the job succeeded, the artifact
downloads, but the ImgBB re-upload is rejected. -/
def statusEnvBad : StatusEnv :=
  ⟨.ok sbSnap, .ok [137, 80], .error "server rejected"⟩

/-- The loop ignores a transient tick: it consumes one fetch and one sleep and
continues at the next attempt index. -/
theorem waitFrom_transient_step (execution_id : String) (fetch : Nat → FetchResult)
    (max_retries attempt remaining : Nat)
    (h : transient (fetch attempt) = true) :
    waitFrom execution_id fetch max_retries attempt (remaining + 1) =
      ⟨(waitFrom execution_id fetch max_retries (attempt + 1) remaining).outcome,
       (waitFrom execution_id fetch max_retries (attempt + 1) remaining).fetches + 1,
       (waitFrom execution_id fetch max_retries (attempt + 1) remaining).sleeps + 1⟩ := by
  cases hf : fetch attempt with
  | transportError m => simp [waitFrom, hf]
  | ok e =>
    simp only [transient, hf, decide_eq_true_eq] at h
    push_neg at h
    obtain ⟨h1, h2, h3⟩ := h
    simp [waitFrom, hf, h1, h2, h3]

/-- Skipping a run of `k` transient ticks: the loop reaches attempt
`attempt + k` having spent `k` fetches and `k` sleeps. -/
theorem waitFrom_skip (execution_id : String) (fetch : Nat → FetchResult)
    (max_retries : Nat) (k : Nat) (attempt remaining : Nat)
    (h : ∀ j, j < k → transient (fetch (attempt + j)) = true) :
    waitFrom execution_id fetch max_retries attempt (k + remaining) =
      ⟨(waitFrom execution_id fetch max_retries (attempt + k) remaining).outcome,
       (waitFrom execution_id fetch max_retries (attempt + k) remaining).fetches + k,
       (waitFrom execution_id fetch max_retries (attempt + k) remaining).sleeps + k⟩ := by
  induction k generalizing attempt with
  | zero => simp
  | succ k ih =>
    have hstep := waitFrom_transient_step execution_id fetch max_retries attempt
      (k + remaining) (h 0 (Nat.succ_pos _))
    have hrec := ih (attempt + 1) (fun j hj => by
      have := h (j + 1) (Nat.succ_lt_succ hj)
      simpa [Nat.add_assoc, Nat.add_comm 1 j] using this)
    rw [show k + 1 + remaining = (k + remaining) + 1 by omega, hstep, hrec,
        show attempt + 1 + k = attempt + (k + 1) by omega]
    simp only [WaitTrace.mk.injEq]
    exact ⟨trivial, by omega, by omega⟩

/-- The loop never finishes early on ticks that yield a transport error: with
every fetch failing, all `remaining` iterations are consumed (one fetch and one
sleep each) and the loop falls through to the `TimeoutError`. -/
theorem waitFrom_all_transport (execution_id : String) (fetch : Nat → FetchResult)
    (max_retries : Nat) (h : ∀ j, ∃ m, fetch j = .transportError m) :
    ∀ remaining attempt, waitFrom execution_id fetch max_retries attempt remaining =
      ⟨.timedOut (timeoutMsg execution_id max_retries), remaining, remaining⟩ := by
  intro remaining
  induction remaining with
  | zero => intro attempt; simp [waitFrom]
  | succ r ih =>
    intro attempt
    obtain ⟨m, hm⟩ := h attempt
    simp [waitFrom, hm, ih]

/-- C1 (amended): a snapshot whose status, after the code's `.lower()`
normalization, is exactly `"succeeded"` — case-insensitive but with no
whitespace tolerance — stops the polling loop at that tick: the snapshot is
returned unchanged, exactly `k + 1` fetches have happened, and no sleep
follows the final fetch. -/
theorem wait_succeeded_stops_and_returns (execution_id : String)
    (fetch : Nat → FetchResult) (max_retries k : Nat)
    (hk : k < max_retries)
    (hpre : ∀ j, j < k → transient (fetch j) = true)
    (s : Snapshot) (hs : fetch k = .ok s)
    (hst : lower (s.status.getD "") = "succeeded") :
    wait_for_execution execution_id fetch max_retries = ⟨.success s, k + 1, k⟩ := by
  obtain ⟨r, hr⟩ : ∃ r, max_retries - k = r + 1 := ⟨max_retries - k - 1, by omega⟩
  have hmr : max_retries = k + (r + 1) := by omega
  have hone : waitFrom execution_id fetch max_retries k (r + 1) = ⟨.success s, 1, 0⟩ := by
    simp [waitFrom, hs, normStatus, hst]
  have hskip := waitFrom_skip execution_id fetch max_retries k 0 (r + 1)
    (fun j hj => by simpa using hpre j hj)
  rw [wait_for_execution]
  nth_rewrite 2 [hmr]
  rw [hskip, Nat.zero_add, hone]
  simp only [WaitTrace.mk.injEq]
  exact ⟨trivial, by omega, by omega⟩

/-- C1 witness: two in-flight ticks would be skipped, but the second tick
reports `"SUCCEEDED"` (upper case), so polling stops there, at two fetches and
one sleep, returning that snapshot. -/
theorem wait_succeeded_stops_and_returns_witness :
    wait_for_execution "e1" exFetch 3 = ⟨.success upperSucceeded, 2, 1⟩ :=
  wait_succeeded_stops_and_returns "e1" exFetch 3 1 (by decide)
    (fun j hj => by
      have hj0 : j = 0 := by omega
      subst hj0; decide)
    upperSucceeded (by decide) (by decide)

/-- C1 counterexample: with surrounding whitespace (`" succeeded"`) the code's
`.lower()`-only normalization does not match the success token, so the loop
does not stop and return the snapshot at that tick; with a budget of one
retry it instead times out. -/
theorem wait_whitespace_succeeded_cex :
    wait_for_execution "e1" (fun _ => .ok spacedSucceeded) 1 ≠
      ⟨.success spacedSucceeded, 1, 0⟩ ∧
    (wait_for_execution "e1" (fun _ => .ok spacedSucceeded) 1).outcome =
      .timedOut (timeoutMsg "e1" 1) := by
  constructor
  · decide
  · decide

/-- C2: when every status fetch fails with a transport error, the loop makes
exactly `max_retries` fetch attempts, sleeps after each of them, never raises
the job-failure exception, and finally raises the distinct `TimeoutError`. -/
theorem wait_all_transport_times_out (execution_id : String)
    (fetch : Nat → FetchResult) (max_retries : Nat)
    (h : ∀ j, ∃ m, fetch j = .transportError m) :
    wait_for_execution execution_id fetch max_retries =
      ⟨.timedOut (timeoutMsg execution_id max_retries), max_retries, max_retries⟩ :=
  waitFrom_all_transport execution_id fetch max_retries h max_retries 0

/-- C2 witness: three attempts, all transport errors, end in the timeout
outcome with three fetches and three sleeps. -/
theorem wait_all_transport_times_out_witness :
    wait_for_execution "e1" (fun _ => .transportError "connection reset") 3 =
      ⟨.timedOut (timeoutMsg "e1" 3), 3, 3⟩ :=
  wait_all_transport_times_out "e1" (fun _ => .transportError "connection reset") 3
    (fun _ => ⟨"connection reset", rfl⟩)

/-- C3: a snapshot whose normalized status is `"failed"` or `"error"`
(case-insensitive) stops the loop at that tick with no further fetch and no
sleep, raising the job-failure exception that carries the snapshot's
`error` detail. -/
theorem wait_failed_raises (execution_id : String) (fetch : Nat → FetchResult)
    (max_retries k : Nat)
    (hk : k < max_retries)
    (hpre : ∀ j, j < k → transient (fetch j) = true)
    (s : Snapshot) (hs : fetch k = .ok s)
    (hst : lower (s.status.getD "") = "failed" ∨
           lower (s.status.getD "") = "error") :
    wait_for_execution execution_id fetch max_retries =
      ⟨.jobFailed ("Execution failed: " ++ s.error.getD "Unknown error"), k + 1, k⟩ := by
  obtain ⟨r, hr⟩ : ∃ r, max_retries - k = r + 1 := ⟨max_retries - k - 1, by omega⟩
  have hmr : max_retries = k + (r + 1) := by omega
  have hone : waitFrom execution_id fetch max_retries k (r + 1) =
      ⟨.jobFailed ("Execution failed: " ++ s.error.getD "Unknown error"), 1, 0⟩ := by
    rcases hst with hst | hst <;> simp [waitFrom, hs, normStatus, hst]
  have hskip := waitFrom_skip execution_id fetch max_retries k 0 (r + 1)
    (fun j hj => by simpa using hpre j hj)
  rw [wait_for_execution]
  nth_rewrite 2 [hmr]
  rw [hskip, Nat.zero_add, hone]
  simp only [WaitTrace.mk.injEq]
  exact ⟨trivial, by omega, by omega⟩

/-- C3 witness: the first fetch reports `"FAILED"` with an error detail, so
polling stops after a single fetch, raising the failure message that carries
the detail. -/
theorem wait_failed_raises_witness :
    wait_for_execution "e1" (fun _ => .ok failedSnap) 5 =
      ⟨.jobFailed "Execution failed: out of credits", 1, 0⟩ :=
  wait_failed_raises "e1" (fun _ => .ok failedSnap) 5 0 (by decide)
    (fun j hj => absurd hj (by omega)) failedSnap rfl (by decide)

/-- C9: with `max_retries = 0` the `for` loop body never runs: no status
fetch, no sleep, and the `TimeoutError` is raised at once. -/
theorem wait_zero_retries_times_out (execution_id : String)
    (fetch : Nat → FetchResult) :
    wait_for_execution execution_id fetch 0 =
      ⟨.timedOut (timeoutMsg execution_id 0), 0, 0⟩ := rfl

/-- C4 counterexample: the job succeeded, the artifact was downloaded and the
re-upload was attempted and failed; the endpoint then answers with a 500
carrying the re-upload error instead of returning the original job status. -/
theorem status_reupload_error_cex :
    (get_execution_status "k" "k" "e1" statusEnvBad).2 =
      [ExtCall.fetchStatus "e1", ExtCall.download "http://p/out.png",
       ExtCall.upload "output_e1.png"] ∧
    (get_execution_status "k" "k" "e1" statusEnvBad).1 =
      .error (.serverError
        "Error checking execution status: Failed to upload image: server rejected") ∧
    exceptIsOk (get_execution_status "k" "k" "e1" statusEnvBad).1 = false := by
  refine ⟨?_, ?_, ?_⟩ <;> rfl

/-- C4 (amended): on a succeeded snapshot with a non-empty output the
artifact is downloaded and re-uploaded and, when both steps work, the
response carries the re-hosted `output_url`; when either step fails, the
endpoint raises a 500 surfacing that failure and does not return the
original job status. -/
theorem status_success_reupload (cfgKey execution_id : String)
    (env : StatusEnv) (result : Snapshot)
    (hfetch : env.fetchDetails = .ok result)
    (hst : lower (result.status.getD "") = "succeeded")
    (hout : result.output.getD "" ≠ "") :
    (ExtCall.download (stripQuotes (result.output.getD "")) ∈
        (get_execution_status cfgKey cfgKey execution_id env).2) ∧
    (∀ content url, env.download = .ok content → env.hosting = .ok url →
      (get_execution_status cfgKey cfgKey execution_id env).1 =
        .ok ⟨execution_id, "succeeded",
             { result with output_url := some url }⟩) ∧
    (∀ e, env.download = .error e →
      (get_execution_status cfgKey cfgKey execution_id env).1 =
        .error (.serverError ("Error checking execution status: " ++ e))) ∧
    (∀ content e, env.download = .ok content → env.hosting = .error e →
      (get_execution_status cfgKey cfgKey execution_id env).1 =
        .error (.serverError
          ("Error checking execution status: " ++
            ("Failed to upload image: " ++ e)))) := by
  obtain ⟨fd, dl, ho⟩ := env
  simp only at hfetch
  subst hfetch
  cases dl <;> cases ho <;>
    simp_all [get_execution_status, upload_to_imgbb, hst, hout]

/-- C4 witness: in the concrete failing environment the download call is in
the trace and the 500 response carries the re-upload failure. -/
theorem status_success_reupload_witness :
    ExtCall.download "http://p/out.png" ∈
      (get_execution_status "k" "k" "e1" statusEnvBad).2 ∧
    (get_execution_status "k" "k" "e1" statusEnvBad).1 =
      .error (.serverError
        "Error checking execution status: Failed to upload image: server rejected") :=
  ⟨(status_success_reupload "k" "e1" statusEnvBad sbSnap rfl (by decide)
      (by decide)).1,
   (status_success_reupload "k" "e1" statusEnvBad sbSnap rfl (by decide)
      (by decide)).2.2.2 [137, 80] "server rejected" rfl rfl⟩

/-- C5: a non-image content type on either file makes `/change-cloth` answer
with a 400 validation error and issue no external call at all. -/
theorem non_image_rejected_no_calls (cfgKey clothing_type : String)
    (person cloth : UploadFile) (env : ChangeClothEnv)
    (h : startswith person.content_type "image/" = false ∨
         startswith cloth.content_type "image/" = false) :
    isBadRequest (change_cloth cfgKey cfgKey person cloth clothing_type env).1 =
      true ∧
    (change_cloth cfgKey cfgKey person cloth clothing_type env).2 = [] := by
  cases hp : startswith person.content_type "image/" <;>
    cases hc : startswith cloth.content_type "image/" <;>
      simp_all [change_cloth, isBadRequest]

/-- C5 witness: a `.txt` person file is rejected with a 400 and no external
call happens, even though the environment would have answered the calls. -/
theorem non_image_rejected_no_calls_witness :
    isBadRequest (change_cloth "k" "k" notesTxt clothPng "" okEnv).1 = true ∧
    (change_cloth "k" "k" notesTxt clothPng "" okEnv).2 = [] :=
  non_image_rejected_no_calls "k" "" notesTxt clothPng okEnv (.inl (by decide))

/-- C6: when either image upload fails, the whole `/change-cloth` request
fails and the trigger call never appears in the trace of issued calls. -/
theorem upload_failure_blocks_trigger (cfgKey apiKey clothing_type : String)
    (person cloth : UploadFile) (env : ChangeClothEnv)
    (h : exceptIsOk env.uploadPerson = false ∨
         exceptIsOk env.uploadCloth = false) :
    exceptIsOk (change_cloth cfgKey apiKey person cloth clothing_type env).1 =
      false ∧
    ((change_cloth cfgKey apiKey person cloth clothing_type env).2).any
      isTrigger = false := by
  obtain ⟨up, uc⟩ := env
  by_cases hk : apiKey = cfgKey
  · cases hp : startswith person.content_type "image/" <;>
      cases hc : startswith cloth.content_type "image/" <;>
        cases up <;> cases uc <;>
          simp_all [change_cloth, upload_to_imgbb, exceptIsOk, isTrigger]
  · simp [change_cloth, hk, exceptIsOk]

/-- C6 witness: with the person upload failing, the request fails and no
trigger call is in the trace. -/
theorem upload_failure_blocks_trigger_witness :
    exceptIsOk (change_cloth "k" "k" personJpg clothPng "" personUploadFails).1 =
      false ∧
    ((change_cloth "k" "k" personJpg clothPng "" personUploadFails).2).any
      isTrigger = false :=
  upload_failure_blocks_trigger "k" "k" "" personJpg clothPng personUploadFails
    (.inl rfl)

/-- After an upsert for device `d`, the first matching row holds the new
count and timestamp. -/
theorem queryFirst_updateFirst (d : String) (n : Int) (t : Nat) :
    ∀ db : Db, queryFirst d (updateFirst d n t db) =
      (queryFirst d db).map
        (fun r => { r with try_count_left := n, last_updated := t }) := by
  intro db
  induction db with
  | nil => simp [queryFirst, updateFirst]
  | cons r rs ih =>
    by_cases hr : r.device_id = d
    · simp [queryFirst, updateFirst, hr]
    · simp [queryFirst, updateFirst, hr, ih]

/-- Appending a fresh row for an absent device makes it the first match. -/
theorem queryFirst_append (d : String) (r : DeviceRecord)
    (hr : r.device_id = d) :
    ∀ db : Db, queryFirst d db = none →
      queryFirst d (db ++ [r]) = some r := by
  intro db
  induction db with
  | nil => intro _; simp [queryFirst, hr]
  | cons x xs ih =>
    intro hnone
    by_cases hx : x.device_id = d
    · simp [queryFirst, hx] at hnone
    · simp only [queryFirst, hx] at hnone
      simpa [queryFirst, hx] using ih hnone

/-- The row an upsert leaves behind for its device: new count, new stamp. -/
theorem queryFirst_after_update (cfgKey d : String) (n : Int) (t : Nat)
    (db : Db) :
    ∃ r, queryFirst d (update_try_count cfgKey cfgKey d n t db).2 = some r ∧
      r.try_count_left = n ∧ r.last_updated = t := by
  rw [update_try_count]
  cases hq : queryFirst d db with
  | none =>
    exact ⟨⟨d, n, t⟩, by simp [queryFirst_append d ⟨d, n, t⟩ rfl db hq], rfl, rfl⟩
  | some r =>
    exact ⟨{ r with try_count_left := n, last_updated := t },
      by simp [queryFirst_updateFirst, hq], rfl, rfl⟩

/-- C7: `set(d, n)` followed by `get(d)` returns `n`; a second `set(d, m)`
overwrites to `m` with no accumulation; `last_updated` is overwritten on
every set. -/
theorem quota_last_write_wins (cfgKey d : String) (n m : Int) (t1 t2 : Nat)
    (db : Db) :
    get_try_count cfgKey cfgKey d (update_try_count cfgKey cfgKey d n t1 db).2 =
      .ok ⟨d, some n⟩ ∧
    get_try_count cfgKey cfgKey d
        (update_try_count cfgKey cfgKey d m t2
          (update_try_count cfgKey cfgKey d n t1 db).2).2 =
      .ok ⟨d, some m⟩ ∧
    (queryFirst d (update_try_count cfgKey cfgKey d n t1 db).2).map
        DeviceRecord.last_updated = some t1 ∧
    (queryFirst d (update_try_count cfgKey cfgKey d m t2
        (update_try_count cfgKey cfgKey d n t1 db).2).2).map
        DeviceRecord.last_updated = some t2 := by
  obtain ⟨r1, hr1, hn1, ht1⟩ := queryFirst_after_update cfgKey d n t1 db
  obtain ⟨r2, hr2, hn2, ht2⟩ := queryFirst_after_update cfgKey d m t2
    (update_try_count cfgKey cfgKey d n t1 db).2
  refine ⟨?_, ?_, ?_, ?_⟩
  · simp [get_try_count, hr1, hn1]
  · simp [get_try_count, hr2, hn2]
  · simp [hr1, ht1]
  · simp [hr2, ht2]

/-- C8: a `/change-cloth` request carries the quota store across unchanged —
every device's try count reads the same before and after, and the device
listing is identical; only the explicit `POST /try-count` upsert writes the
store. -/
theorem change_cloth_preserves_quota (cfgKey apiKey clothing_type : String)
    (person cloth : UploadFile) (env : ChangeClothEnv) (db : Db) :
    (change_cloth_app cfgKey apiKey person cloth clothing_type env db).2 = db ∧
    (∀ d, get_try_count cfgKey cfgKey d
        (change_cloth_app cfgKey apiKey person cloth clothing_type env db).2 =
      get_try_count cfgKey cfgKey d db) ∧
    get_devices cfgKey cfgKey
        (change_cloth_app cfgKey apiKey person cloth clothing_type env db).2 =
      get_devices cfgKey cfgKey db :=
  ⟨rfl, fun _ => rfl, rfl⟩

/-- C10: every endpoint — `/change-cloth`, `/status/{id}`,
`GET /try-count/{id}`, `POST /try-count` and `GET /devices` — answers a
request whose `X-API-Key` header differs from the configured key with a 403
before any external call or store write. -/
theorem wrong_api_key_rejected (cfgKey apiKey : String) (h : apiKey ≠ cfgKey)
    (person cloth : UploadFile) (clothing_type : String)
    (envC : ChangeClothEnv) (execution_id : String) (envS : StatusEnv)
    (d : String) (n : Int) (now : Nat) (db : Db) :
    change_cloth cfgKey apiKey person cloth clothing_type envC =
      (.error (.forbidden "Invalid API key"), []) ∧
    get_execution_status cfgKey apiKey execution_id envS =
      (.error (.forbidden "Invalid API key"), []) ∧
    get_try_count cfgKey apiKey d db = .error (.forbidden "Invalid API key") ∧
    update_try_count cfgKey apiKey d n now db =
      (.error (.forbidden "Invalid API key"), db) ∧
    get_devices cfgKey apiKey db = .error (.forbidden "Invalid API key") := by
  refine ⟨?_, ?_, ?_, ?_, ?_⟩ <;>
    simp [change_cloth, get_execution_status, get_try_count, update_try_count,
      get_devices, h]

/-- C10 witness: a concrete wrong key is turned away by all five endpoints
with no call issued and the store intact. -/
theorem wrong_api_key_rejected_witness :
    change_cloth "mobile-key" "intruder" personJpg clothPng "" okEnv =
      (.error (.forbidden "Invalid API key"), []) ∧
    get_execution_status "mobile-key" "intruder" "e1" statusEnvBad =
      (.error (.forbidden "Invalid API key"), []) ∧
    get_try_count "mobile-key" "intruder" "d1" [] =
      .error (.forbidden "Invalid API key") ∧
    update_try_count "mobile-key" "intruder" "d1" 5 0 [] =
      (.error (.forbidden "Invalid API key"), []) ∧
    get_devices "mobile-key" "intruder" [] =
      .error (.forbidden "Invalid API key") :=
  wrong_api_key_rejected "mobile-key" "intruder" (by decide) personJpg clothPng
    "" okEnv "e1" statusEnvBad "d1" 5 0 []

end ClothAI
